import Mathlib

/-!
Verification development for the Polaris action-classification engine
(src/server/action_classifier.py and src/server/dual_pose_tracker.py).

Modelling conventions:
- A Feature Frame is a record of optional rational values; an absent key of
  the Python dict is the value none (frame.get returns None).
- Python floats are modelled as exact rationals; all thresholds in the source
  are short decimal literals, written here as rationals (0.08 = 8 / 100).
- Python lists are Lean lists in the same order (oldest frame first);
  history[-1] is List.getLast?, history[-3:] is lastN 3.
- Each definition mirrors one named boolean or one statement block of the
  source, keeping the source names.
-/

structure AngleFrame where
  left_knee_angle : Option ℚ := none
  right_knee_angle : Option ℚ := none
  left_hip_angle : Option ℚ := none
  right_hip_angle : Option ℚ := none
  left_elbow_angle : Option ℚ := none
  right_elbow_angle : Option ℚ := none
  left_shoulder_angle : Option ℚ := none
  right_shoulder_angle : Option ℚ := none
  left_hip_y : Option ℚ := none
  right_hip_y : Option ℚ := none
  left_shoulder_y : Option ℚ := none
  right_shoulder_y : Option ℚ := none
deriving DecidableEq

/-- Python slice l[-n:]: the last n elements (the whole list when shorter). -/
def lastN {α : Type} (n : ℕ) (l : List α) : List α := l.drop (l.length - n)

/-- Python l[-2]: the next-to-last element. -/
def penult {α : Type} (l : List α) : Option α := l.dropLast.getLast?

/-- Python l[0] on a list of numbers (guarded nonempty in the source). -/
def listFirst (l : List ℚ) : ℚ := l.headD 0

/-- Python l[-1] on a list of numbers (guarded nonempty in the source). -/
def listLast (l : List ℚ) : ℚ := l.getLastD 0

/-- Python abs on a rational. -/
def rabs (x : ℚ) : ℚ := if x < 0 then -x else x

/-- Python max on two rationals. -/
def rmax (a b : ℚ) : ℚ := if a ≤ b then b else a

/-- Python min on two rationals. -/
def rmin (a b : ℚ) : ℚ := if b ≤ a then b else a

/-- Python max(l) (guarded nonempty in the source). -/
def listMax : List ℚ → ℚ
  | [] => 0
  | h :: t => t.foldl rmax h

/-- Python min(l) (guarded nonempty in the source). -/
def listMin : List ℚ → ℚ
  | [] => 0
  | h :: t => t.foldl rmin h

/-- action_classifier.py lines 32-33: both knees present and below 120. -/
def knees_bent (f : AngleFrame) : Bool :=
  match f.left_knee_angle, f.right_knee_angle with
  | some lk, some rk => decide (lk < 120 ∧ rk < 120)
  | _, _ => false

/-- action_classifier.py lines 36-42: crouch exclusion, arms straight
(elbows above 150) and hunched forward (shoulders below 120). -/
def in_mountain_climber_position (f : AngleFrame) : Bool :=
  match f.left_elbow_angle, f.right_elbow_angle,
        f.left_shoulder_angle, f.right_shoulder_angle with
  | some le, some re, some ls, some rs =>
      decide (150 < le ∧ 150 < re) && decide (ls < 120 ∧ rs < 120)
  | _, _, _, _ => false

/-- action_classifier.py line 45: the crouch rule on the latest frame. -/
def is_crouching (f : AngleFrame) : Bool :=
  knees_bent f && !in_mountain_climber_position f

/-- action_classifier.py lines 64-65: a recent frame with both knees below 130. -/
def recent_crouch (g : AngleFrame) : Bool :=
  match g.left_knee_angle, g.right_knee_angle with
  | some lk, some rk => decide (lk < 130 ∧ rk < 130)
  | _, _ => false

/-- action_classifier.py lines 68-73: a recent frame in a mountain-climber-like
pose (elbows above 150, shoulders below 125). -/
def recent_mountain_climber (g : AngleFrame) : Bool :=
  match g.left_elbow_angle, g.right_elbow_angle,
        g.left_shoulder_angle, g.right_shoulder_angle with
  | some le, some re, some ls, some rs =>
      decide (150 < le ∧ 150 < re) && decide (ls < 125 ∧ rs < 125)
  | _, _, _, _ => false

/-- action_classifier.py lines 51-78: the debounce buffer after crouch or
mountain climber: previous action is one of the two, at least 2 frames of
history, and one of the last 3 frames still shows the pose. -/
def action_buffer_active (angle_history : List AngleFrame) (prev_action : Option String) : Bool :=
  (decide (prev_action = some "crouch") || decide (prev_action = some "mountain_climber")) &&
  decide (2 ≤ angle_history.length) &&
  (lastN 3 angle_history).any (fun g => recent_crouch g || recent_mountain_climber g)

/-- action_classifier.py lines 82-84: both elbows present and above 160. -/
def straight_arms (f : AngleFrame) : Bool :=
  match f.left_elbow_angle, f.right_elbow_angle with
  | some le, some re => decide (160 < le ∧ 160 < re)
  | _, _ => false

/-- action_classifier.py lines 87-90: both shoulders present and below 115. -/
def hunched_back (f : AngleFrame) : Bool :=
  match f.left_shoulder_angle, f.right_shoulder_angle with
  | some ls, some rs => decide (ls < 115 ∧ rs < 115)
  | _, _ => false

/-- action_classifier.py lines 93-125: alternating-hip evidence over the last
3 frames: both current hips present, all of the last 3 frames carry both hip
angles, current hip difference above 15, and either a hip range above 12 or
opposite hip trends with one magnitude above 8. -/
def alternating_hips (angle_history : List AngleFrame) (f : AngleFrame) : Bool :=
  if angle_history.length < 3 then false
  else
    match f.left_hip_angle, f.right_hip_angle with
    | some lh, some rh =>
        let valid_left_hips := (lastN 3 angle_history).filterMap (fun g => g.left_hip_angle)
        let valid_right_hips := (lastN 3 angle_history).filterMap (fun g => g.right_hip_angle)
        if valid_left_hips.length < 3 || valid_right_hips.length < 3 then false
        else
          let left_hip_range := rabs (listMax valid_left_hips - listMin valid_left_hips)
          let right_hip_range := rabs (listMax valid_right_hips - listMin valid_right_hips)
          let left_hip_trend := listLast valid_left_hips - listFirst valid_left_hips
          let right_hip_trend := listLast valid_right_hips - listFirst valid_right_hips
          decide (15 < rabs (lh - rh)) &&
          ((decide (12 < left_hip_range) || decide (12 < right_hip_range)) ||
           (decide (left_hip_trend * right_hip_trend < 0) &&
            (decide (8 < rabs left_hip_trend) || decide (8 < rabs right_hip_trend))))
    | _, _ => false

/-- action_classifier.py line 128: the mountain-climber rule. -/
def mc_rule (angle_history : List AngleFrame) (f : AngleFrame) : Bool :=
  straight_arms f && hunched_back f &&
  (alternating_hips angle_history f || decide (angle_history.length < 3))

/-- action_classifier.py lines 133-137: both knees present, difference above 20. -/
def alternating_knees (f : AngleFrame) : Bool :=
  match f.left_knee_angle, f.right_knee_angle with
  | some lk, some rk => decide (20 < rabs (lk - rk))
  | _, _ => false

/-- action_classifier.py lines 140-160: arm movement, only evaluated with at
least 2 frames of history: an elbow angle changed by more than 10 from the
previous frame, or both current elbows absent (leg-only fallback). -/
def arm_movement (angle_history : List AngleFrame) (f : AngleFrame) : Bool :=
  if angle_history.length < 2 then false
  else
    match penult angle_history with
    | none => false
    | some prev_frame =>
        (match f.left_elbow_angle, prev_frame.left_elbow_angle with
         | some c, some p => decide (10 < rabs (c - p))
         | _, _ => false) ||
        (match f.right_elbow_angle, prev_frame.right_elbow_angle with
         | some c, some p => decide (10 < rabs (c - p))
         | _, _ => false) ||
        (decide (f.left_elbow_angle = none) && decide (f.right_elbow_angle = none))

/-- action_classifier.py lines 163-173: not both knees below 90, and the
larger knee at least 130; vacuously true when a knee is absent. -/
def proper_running_position (f : AngleFrame) : Bool :=
  match f.left_knee_angle, f.right_knee_angle with
  | some lk, some rk => !decide (lk < 90 ∧ rk < 90) && !decide (rmax lk rk < 130)
  | _, _ => true

/-- action_classifier.py line 176: the run rule. -/
def run_rule (angle_history : List AngleFrame) (f : AngleFrame) (prev_action : Option String) : Bool :=
  alternating_knees f && arm_movement angle_history f &&
  proper_running_position f && !action_buffer_active angle_history prev_action

/-- action_classifier.py lines 194-209: a frame with all four landmark
heights present yields its average hip height and its torso size. -/
def frameHipSize (g : AngleFrame) : Option (ℚ × ℚ) :=
  match g.left_hip_y, g.right_hip_y, g.left_shoulder_y, g.right_shoulder_y with
  | some lh, some rh, some ls, some rs =>
      let avg_hip_y := (lh + rh) / 2
      let avg_shoulder_y := (ls + rs) / 2
      some (avg_hip_y, rabs (avg_hip_y - avg_shoulder_y))
  | _, _, _, _ => none

/-- The complete-data frames among the last 3 frames of the history. -/
def lastHipSizes (angle_history : List AngleFrame) : List (ℚ × ℚ) :=
  (lastN 3 angle_history).filterMap frameHipSize

/-- How many of the last 3 frames carry complete landmark-height data. -/
def completeCount (angle_history : List AngleFrame) : ℕ :=
  (lastHipSizes angle_history).length

/-- action_classifier.py lines 235-247: not a deep crouch (both knees below
110) and not a mountain-climber pose; both exclusions are only evaluated when
both knee angles are present. -/
def proper_jump_pose (f : AngleFrame) : Bool :=
  match f.left_knee_angle, f.right_knee_angle with
  | some lk, some rk =>
      !decide (lk < 110 ∧ rk < 110) &&
      !(match f.left_shoulder_angle, f.right_shoulder_angle,
              f.left_elbow_angle, f.right_elbow_angle with
        | some ls, some rs, some le, some re =>
            decide (ls < 115 ∧ rs < 115) && decide (165 < le ∧ 165 < re)
        | _, _, _, _ => false)
  | _, _ => true

/-- action_classifier.py lines 188-257: the geometric part of the jump rule:
at least 2 complete frames among the last 3, positive average torso size,
upward hip movement above 8 percent of the torso size, size variation below
15 percent, and a proper jump pose in the latest frame. -/
def jump_core (angle_history : List AngleFrame) (f : AngleFrame) : Bool :=
  let pairs := lastHipSizes angle_history
  if pairs.length < 2 then false
  else
    let hip_y_positions := pairs.map Prod.fst
    let body_sizes := pairs.map Prod.snd
    let upward_movement := listFirst hip_y_positions - listLast hip_y_positions
    let avg_body_size := body_sizes.sum / (pairs.length : ℚ)
    if 0 < avg_body_size then
      decide (avg_body_size * (8 / 100) < upward_movement) &&
      decide (rabs (listMax body_sizes - listMin body_sizes) / avg_body_size < 15 / 100) &&
      proper_jump_pose f
    else false

/-- action_classifier.py lines 182-257: the jump rule, gated by the cooldown
(previous action crouch or mountain climber, or an active debounce buffer)
and by a history of at least 3 frames. -/
def jump_rule (angle_history : List AngleFrame) (f : AngleFrame) (prev_action : Option String) : Bool :=
  let cooldown_active :=
    decide (prev_action = some "crouch") || decide (prev_action = some "mountain_climber") ||
    action_buffer_active angle_history prev_action
  !cooldown_active && decide (3 ≤ angle_history.length) && jump_core angle_history f

/-- action_classifier.py lines 3-263: the priority arbiter.  Empty history
gives unknown; otherwise the rules fire in the order crouch, mountain
climber, run, jump, defaulting to unknown. -/
def classify_action_simple (angle_history : List AngleFrame) (prev_action : Option String) : String :=
  match angle_history.getLast? with
  | none => "unknown"
  | some current_frame =>
      if is_crouching current_frame then "crouch"
      else if mc_rule angle_history current_frame then "mountain_climber"
      else if run_rule angle_history current_frame prev_action then "run"
      else if jump_rule angle_history current_frame prev_action then "jump"
      else "unknown"

/-- dual_pose_tracker.py lines 48-55: per-track rep counters. -/
structure Counts where
  crouch_reps : ℕ := 0
  mountain_climber_reps : ℕ := 0
  run_reps : ℕ := 0
  jump_reps : ℕ := 0
deriving DecidableEq

/-- Read the rep counter of one action name (0 for any other string). -/
def getCount (c : Counts) (a : String) : ℕ :=
  if a = "crouch" then c.crouch_reps
  else if a = "mountain_climber" then c.mountain_climber_reps
  else if a = "run" then c.run_reps
  else if a = "jump" then c.jump_reps
  else 0

/-- dual_pose_tracker.py lines 60-63 and 364-371: the hold length started
when a raw action fires: mountain climber 2, run 0, jump 0, crouch (the
final else branch) 8. -/
def bufferLengthFor (raw : String) : ℕ :=
  if raw = "mountain_climber" then 2
  else if raw = "run" then 0
  else if raw = "jump" then 0
  else 8

/-- dual_pose_tracker.py lines 361-377: one step of the hysteresis state
machine on (current stable action, remaining hold) with raw label raw. -/
def hysteresisStep (action : String) (action_buffer : ℕ) (raw : String) : String × ℕ :=
  if raw ≠ "unknown" then (raw, bufferLengthFor raw)
  else if 0 < action_buffer then (action, action_buffer - 1)
  else ("unknown", 0)

/-- dual_pose_tracker.py lines 400-412: increment the counter of the action. -/
def bumpCounts (c : Counts) (a : String) : Counts :=
  if a = "crouch" then { c with crouch_reps := c.crouch_reps + 1 }
  else if a = "mountain_climber" then { c with mountain_climber_reps := c.mountain_climber_reps + 1 }
  else if a = "run" then { c with run_reps := c.run_reps + 1 }
  else if a = "jump" then { c with jump_reps := c.jump_reps + 1 }
  else c

/-- dual_pose_tracker.py lines 400-412: the rep counter fires exactly on an
unknown-to-action transition of the stable label. -/
def repStep (prev_action : String) (c : Counts) (a : String) : Counts :=
  if prev_action = "unknown" ∧ a ≠ "unknown" then bumpCounts c a else c

/-- One frame of the rep-counting machine: the carried state is the pair
(previous stable action, counts), the input is the stable label of the
frame; dual_pose_tracker.py lines 398-431 (count, then update prev). -/
def repMachine (p : String × Counts) (a : String) : String × Counts :=
  (a, repStep p.1 p.2 a)

/-- dual_pose_tracker.py lines 37-63: the whole per-track state. -/
structure TrackState where
  angle_history : List AngleFrame := []
  action : String := "unknown"
  prev_action : String := "unknown"
  action_buffer : ℕ := 0
  counts : Counts := {}
deriving DecidableEq

/-- The initial per-track state of dual_pose_tracker.py __init__. -/
def initialTrack : TrackState := {}

/-- dual_pose_tracker.py lines 335-339: a frame with some angle data is
appended to the history deque of capacity 5 (oldest evicted); an empty
detection leaves the history unchanged. -/
def nextHistory (angle_history : List AngleFrame) (input : Option AngleFrame) : List AngleFrame :=
  match input with
  | some f => lastN 5 (angle_history ++ [f])
  | none => angle_history

/-- dual_pose_tracker.py lines 359-431 after the raw label is fixed:
hysteresis, rep counting, then prev becomes the new stable action. -/
def trackStepRaw (s : TrackState) (hist : List AngleFrame) (raw : String) : TrackState :=
  let ab := hysteresisStep s.action s.action_buffer raw
  let c := repStep s.prev_action s.counts ab.1
  { angle_history := hist, action := ab.1, prev_action := ab.1,
    action_buffer := ab.2, counts := c }

/-- One per-track input: the (possibly absent) extracted angle frame and
whether rule evaluation raised an exception on this frame (the try-except
of dual_pose_tracker.py lines 345-357). -/
structure SideInput where
  frame : Option AngleFrame := none
  fault : Bool := false
deriving DecidableEq

/-- dual_pose_tracker.py lines 333-431, one track: append the frame, run
the classifier on the history with the pre-transition previous action
(unknown when the history is empty or evaluation raised), then apply the
hysteresis and rep-count updates. -/
def trackStep (s : TrackState) (input : SideInput) : TrackState :=
  let hist := nextHistory s.angle_history input.frame
  let raw := if input.fault || hist.isEmpty then "unknown"
             else classify_action_simple hist (some s.prev_action)
  trackStepRaw s hist raw

/-- dual_pose_tracker.py process_frame: the left and the right track are
updated by disjoint blocks of statements touching disjoint instance
fields (lines 335-431); one combined step is therefore the pair of the
two independent per-track steps. -/
def dualStep (p : TrackState × TrackState) (d : SideInput × SideInput) : TrackState × TrackState :=
  (trackStep p.1 d.1, trackStep p.2 d.2)

/-- Unfold the arbiter once the latest frame is known. -/
lemma classify_eq (hist : List AngleFrame) (prev : Option String) (f : AngleFrame)
    (hL : hist.getLast? = some f) :
    classify_action_simple hist prev =
      (if is_crouching f then "crouch"
       else if mc_rule hist f then "mountain_climber"
       else if run_rule hist f prev then "run"
       else if jump_rule hist f prev then "jump"
       else "unknown") := by
  unfold classify_action_simple
  rw [hL]

/-- Iterate the hysteresis step on raw-unknown frames. -/
def unkIter : ℕ → String × ℕ → String × ℕ
  | 0, p => p
  | k + 1, p => unkIter k (hysteresisStep p.1 p.2 "unknown")

lemma hysteresisStep_unknown (a : String) (h : ℕ) :
    hysteresisStep a h "unknown" = if 0 < h then (a, h - 1) else ("unknown", 0) := by
  simp [hysteresisStep]

lemma unkIter_le (a : String) : ∀ (k h : ℕ), k ≤ h → unkIter k (a, h) = (a, h - k)
  | 0, h, _ => by simp [unkIter]
  | k + 1, h, hk => by
      have hh : 0 < h := Nat.lt_of_lt_of_le (Nat.succ_pos k) hk
      rw [unkIter, hysteresisStep_unknown]
      simp only [hh, if_true]
      rw [unkIter_le a k (h - 1) (by omega)]
      congr 1
      omega

lemma unkIter_expire (a : String) : ∀ h : ℕ, unkIter (h + 1) (a, h) = ("unknown", 0)
  | 0 => by simp [unkIter, hysteresisStep]
  | h + 1 => by
      rw [unkIter, hysteresisStep_unknown]
      simp only [Nat.succ_pos, if_true, Nat.add_sub_cancel]
      exact unkIter_expire a h

lemma repMachine_same (X : String) (hX : X ≠ "unknown") :
    ∀ (k : ℕ) (c : Counts), List.foldl repMachine (X, c) (List.replicate k X) = (X, c)
  | 0, _ => rfl
  | k + 1, c => by
      rw [List.replicate_succ, List.foldl_cons]
      have : repMachine (X, c) X = (X, c) := by simp [repMachine, repStep, hX]
      rw [this]
      exact repMachine_same X hX k c

lemma repMachine_unknown : ∀ (m : ℕ) (p : String × Counts),
    (List.foldl repMachine p (List.replicate m "unknown")).2 = p.2
  | 0, _ => rfl
  | m + 1, p => by
      rw [List.replicate_succ, List.foldl_cons]
      have : repMachine p "unknown" = ("unknown", p.2) := by simp [repMachine, repStep]
      rw [this]
      exact repMachine_unknown m ("unknown", p.2)

lemma getCount_bump (c : Counts) (X : String)
    (hX : X = "crouch" ∨ X = "mountain_climber" ∨ X = "run" ∨ X = "jump") :
    getCount (bumpCounts c X) X = getCount c X + 1 := by
  rcases hX with h | h | h | h <;> subst h <;> simp [getCount, bumpCounts]

lemma foldl_dual_fst : ∀ (ps qs : List (SideInput × SideInput)),
    ps.map Prod.fst = qs.map Prod.fst →
    ∀ (l0 r0 r0' : TrackState),
    (List.foldl dualStep (l0, r0) ps).1 = (List.foldl dualStep (l0, r0') qs).1
  | [], [], _, _, _, _ => rfl
  | [], _ :: _, h, _, _, _ => by simp at h
  | _ :: _, [], h, _, _, _ => by simp at h
  | p :: ps, q :: qs, h, l0, r0, r0' => by
      simp only [List.map_cons, List.cons.injEq] at h
      obtain ⟨h1, h2⟩ := h
      simp only [List.foldl_cons, dualStep]
      rw [h1]
      exact foldl_dual_fst ps qs h2 (trackStep l0 q.1) (trackStep r0 p.2) (trackStep r0' q.2)

/-- Claim C3: when the raw label is not unknown the stable action becomes the
raw label and the hold counter is reset to 8 for crouch, 2 for mountain
climber and 0 for run and jump; after the frame on which an action a fires
raw, the stable action stays a for any number k of following raw-unknown
frames with k at most the hold length, and becomes unknown after hold
length plus one raw-unknown frames. -/
theorem hysteresis_hold_law (a b : String) (buf k : ℕ) (ha : a ≠ "unknown")
    (hk : k ≤ bufferLengthFor a) :
    hysteresisStep b buf a = (a, bufferLengthFor a) ∧
    bufferLengthFor "crouch" = 8 ∧ bufferLengthFor "mountain_climber" = 2 ∧
    bufferLengthFor "run" = 0 ∧ bufferLengthFor "jump" = 0 ∧
    (unkIter k (a, bufferLengthFor a)).1 = a ∧
    (unkIter (bufferLengthFor a + 1) (a, bufferLengthFor a)).1 = "unknown" := by
  refine ⟨by simp [hysteresisStep, ha], by decide, by decide, by decide, by decide, ?_, ?_⟩
  · rw [unkIter_le a k (bufferLengthFor a) hk]
  · rw [unkIter_expire a (bufferLengthFor a)]

/-- Witness for hysteresis_hold_law at a crouch firing followed by 8 and
then 9 raw-unknown frames. -/
theorem hysteresis_hold_law_witness :
    ("crouch" ≠ "unknown" ∧ (8 : ℕ) ≤ bufferLengthFor "crouch") ∧
    (unkIter 8 ("crouch", bufferLengthFor "crouch")).1 = "crouch" ∧
    (unkIter (bufferLengthFor "crouch" + 1) ("crouch", bufferLengthFor "crouch")).1 = "unknown" :=
  ⟨⟨by decide, by decide⟩,
   (hysteresis_hold_law "crouch" "unknown" 0 8 (by decide) (by decide)).2.2.2.2.2⟩

/-- Claim C4: over a contiguous stretch of n frames of stable action X that
follows a frame with stable action unknown and is followed by m frames of
stable action unknown, the rep counter of X increases by exactly one, and
the increment is already complete on the first frame of the stretch. -/
theorem rep_count_law (c : Counts) (X : String) (n m : ℕ)
    (hX : X = "crouch" ∨ X = "mountain_climber" ∨ X = "run" ∨ X = "jump")
    (hn : 1 ≤ n) :
    getCount (List.foldl repMachine ("unknown", c)
      (List.replicate n X ++ List.replicate m "unknown")).2 X = getCount c X + 1 ∧
    getCount (repMachine ("unknown", c) X).2 X = getCount c X + 1 := by
  have hXu : X ≠ "unknown" := by rcases hX with h | h | h | h <;> subst h <;> decide
  have hfirst : repMachine ("unknown", c) X = (X, bumpCounts c X) := by
    simp [repMachine, repStep, hXu]
  constructor
  · obtain ⟨n', rfl⟩ : ∃ n', n = n' + 1 := ⟨n - 1, by omega⟩
    rw [List.replicate_succ, List.cons_append, List.foldl_cons, hfirst, List.foldl_append,
        repMachine_same X hXu n' (bumpCounts c X),
        repMachine_unknown m (X, bumpCounts c X)]
    exact getCount_bump c X hX
  · rw [hfirst]
    exact getCount_bump c X hX

/-- Witness for rep_count_law: a 2-frame crouch stretch followed by 3
unknown frames counts exactly one crouch rep, counted on the first frame. -/
theorem rep_count_law_witness :
    (("crouch" = "crouch" ∨ "crouch" = "mountain_climber" ∨ "crouch" = "run" ∨
      "crouch" = "jump") ∧ (1 : ℕ) ≤ 2) ∧
    getCount (List.foldl repMachine ("unknown", ({} : Counts))
      (List.replicate 2 "crouch" ++ List.replicate 3 "unknown")).2 "crouch" =
      getCount ({} : Counts) "crouch" + 1 ∧
    getCount (repMachine ("unknown", ({} : Counts)) "crouch").2 "crouch" =
      getCount ({} : Counts) "crouch" + 1 :=
  ⟨⟨Or.inl rfl, by decide⟩, rep_count_law {} "crouch" 2 3 (Or.inl rfl) (by decide)⟩

/-- Claim C9: tracks are independent: two fold runs over input-pair
sequences that agree on the left components give the same left track state,
whatever the right components are; and a left-side evaluation fault makes
the left raw label unknown for that frame while the right side is updated
exactly as by its own step. -/
theorem track_independence (l0 r0 l r : TrackState)
    (ps qs : List (SideInput × SideInput)) (li rin : SideInput)
    (h : ps.map Prod.fst = qs.map Prod.fst) :
    (List.foldl dualStep (l0, r0) ps).1 = (List.foldl dualStep (l0, r0) qs).1 ∧
    (dualStep (l, r) ({ frame := li.frame, fault := true }, rin)).2 = trackStep r rin ∧
    (dualStep (l, r) ({ frame := li.frame, fault := true }, rin)).1 =
      trackStepRaw l (nextHistory l.angle_history li.frame) "unknown" :=
  ⟨foldl_dual_fst ps qs h l0 r0 r0, rfl, rfl⟩

def wFrameA : AngleFrame :=
  { left_knee_angle := some 100
    right_knee_angle := some 100 }

def wInA : SideInput := { frame := some wFrameA }

def wInB : SideInput := { frame := none, fault := false }

def wInC : SideInput := { frame := none, fault := true }

/-- Witness for track_independence: one frame whose right-side inputs
differ (and fault on the right in one run) leaves the left track equal. -/
theorem track_independence_witness :
    ([(wInA, wInB)].map Prod.fst = [(wInA, wInC)].map Prod.fst) ∧
    (List.foldl dualStep (initialTrack, initialTrack) [(wInA, wInB)]).1 =
      (List.foldl dualStep (initialTrack, initialTrack) [(wInA, wInC)]).1 ∧
    (dualStep (initialTrack, initialTrack) ({ frame := wInA.frame, fault := true }, wInB)).2 =
      trackStep initialTrack wInB ∧
    (dualStep (initialTrack, initialTrack) ({ frame := wInA.frame, fault := true }, wInB)).1 =
      trackStepRaw initialTrack (nextHistory initialTrack.angle_history wInA.frame) "unknown" :=
  ⟨rfl, track_independence initialTrack initialTrack initialTrack initialTrack
      [(wInA, wInB)] [(wInA, wInC)] wInA wInB rfl⟩

def c1f : AngleFrame :=
  { left_knee_angle := some 100
    right_knee_angle := some 100
    left_elbow_angle := some 155
    right_elbow_angle := some 155
    left_shoulder_angle := some 118
    right_shoulder_angle := some 118 }

unseal Rat.add Rat.sub Rat.mul Rat.inv in
/-- Claim C1 counterexample: a frame with both knees below 120 that does not
satisfy the straight-arm plus hunched-shoulder combination of the mountain
climber rule (elbows above 160, shoulders below 115) but is nevertheless not
classified crouch, because the exclusion inside the crouch rule uses the
looser thresholds elbows above 150 and shoulders below 120. -/
theorem crouch_exclusion_cex :
    knees_bent c1f = true ∧
    (straight_arms c1f && hunched_back c1f) = false ∧
    classify_action_simple [c1f] none ≠ "crouch" := by decide

/-- Claim C1 (amended): for every non-empty history and prev action, if the
latest frame has both knees present and below 120 and does not satisfy the
crouch-rule exclusion with elbows above 150 and shoulders below 120, the
raw label is crouch. -/
theorem crouch_rule_fires (hist : List AngleFrame) (prev : Option String)
    (f : AngleFrame) (lk rk : ℚ)
    (hL : hist.getLast? = some f)
    (h1 : f.left_knee_angle = some lk) (h2 : f.right_knee_angle = some rk)
    (h3 : lk < 120) (h4 : rk < 120)
    (h5 : in_mountain_climber_position f = false) :
    classify_action_simple hist prev = "crouch" := by
  have hkb : knees_bent f = true := by
    simp [knees_bent, h1, h2]
    exact ⟨h3, h4⟩
  have hic : is_crouching f = true := by simp [is_crouching, hkb, h5]
  rw [classify_eq hist prev f hL]
  simp [hic]

def c1w : AngleFrame :=
  { left_knee_angle := some 100
    right_knee_angle := some 95 }

/-- Witness for crouch_rule_fires at the spec crouch scenario frame. -/
theorem crouch_rule_fires_witness :
    ([c1w].getLast? = some c1w ∧ c1w.left_knee_angle = some 100 ∧
     c1w.right_knee_angle = some 95 ∧ (100 : ℚ) < 120 ∧ (95 : ℚ) < 120 ∧
     in_mountain_climber_position c1w = false) ∧
    classify_action_simple [c1w] none = "crouch" :=
  ⟨⟨rfl, rfl, rfl, by decide, by decide, by decide⟩,
   crouch_rule_fires [c1w] none c1w 100 95 rfl rfl rfl (by decide) (by decide) (by decide)⟩

def c2a : AngleFrame :=
  { left_knee_angle := some 170
    right_knee_angle := some 140 }

def c2b : AngleFrame :=
  { left_knee_angle := some 170
    right_knee_angle := some 140 }

unseal Rat.add Rat.sub Rat.mul Rat.inv in
/-- Claim C2 counterexample: with previous stable action crouch, a 2-frame
history whose frames show neither a crouch-like nor a mountain-climber-like
pose leaves the debounce buffer inactive, and the raw label is run on the
very next frame after the crouch. -/
theorem run_after_crouch_cex :
    classify_action_simple [c2a, c2b] (some "crouch") = "run" := by decide

/-- Claim C2 (amended): with previous stable action crouch or mountain
climber the jump evaluator is suppressed unconditionally, so the raw label
is never jump; the run evaluator is suppressed only when the debounce
buffer is additionally active (at least 2 frames of history and a recent
frame still showing the crouch or mountain-climber pose). -/
theorem cooldown_amended (hist : List AngleFrame) (prev : Option String)
    (hp : prev = some "crouch" ∨ prev = some "mountain_climber") :
    classify_action_simple hist prev ≠ "jump" ∧
    (action_buffer_active hist prev = true → classify_action_simple hist prev ≠ "run") := by
  have hjump : ∀ f, jump_rule hist f prev = false := by
    intro f
    rcases hp with h | h <;> subst h <;> simp [jump_rule]
  cases hgl : hist.getLast? with
  | none =>
      have hu : classify_action_simple hist prev = "unknown" := by
        unfold classify_action_simple
        rw [hgl]
      rw [hu]
      exact ⟨by decide, fun _ => by decide⟩
  | some f =>
      rw [classify_eq hist prev f hgl]
      constructor
      · split_ifs with h1 h2 h3 h4
        · decide
        · decide
        · decide
        · rw [hjump f] at h4
          exact absurd h4 (by decide)
        · decide
      · intro hbuf
        have hrun : run_rule hist f prev = false := by
          simp [run_rule, hbuf]
        split_ifs with h1 h2 h3 h4
        · decide
        · decide
        · rw [hrun] at h3
          exact absurd h3 (by decide)
        · decide
        · decide

/-- Witness for cooldown_amended on an empty history with previous stable
action crouch. -/
theorem cooldown_amended_witness :
    ((some "crouch" : Option String) = some "crouch" ∨
     (some "crouch" : Option String) = some "mountain_climber") ∧
    classify_action_simple [] (some "crouch") ≠ "jump" ∧
    (action_buffer_active [] (some "crouch") = true →
      classify_action_simple [] (some "crouch") ≠ "run") :=
  ⟨Or.inl rfl, cooldown_amended [] (some "crouch") (Or.inl rfl)⟩

def c5f : AngleFrame :=
  { left_knee_angle := some 160
    right_knee_angle := some 135 }

unseal Rat.add Rat.sub Rat.mul Rat.inv in
/-- Claim C5 counterexample: a one-frame history with both elbows absent and
the knee conditions satisfied, no debounce and no crouch or mountain climber
firing, yet the raw label is not run: the arm-movement clause is only
evaluated with at least 2 frames of history, so its leg-only fallback cannot
apply to a single frame. -/
theorem run_single_frame_cex :
    alternating_knees c5f = true ∧ proper_running_position c5f = true ∧
    c5f.left_elbow_angle = none ∧ c5f.right_elbow_angle = none ∧
    action_buffer_active [c5f] none = false ∧
    is_crouching c5f = false ∧ mc_rule [c5f] c5f = false ∧
    classify_action_simple [c5f] none ≠ "run" := by decide

/-- Claim C5 (amended): with no active debounce and the crouch and mountain
climber rules not firing on the latest frame, the raw label is run iff both
knees are present with difference above 20, the arm-movement clause holds
(at least 2 frames of history, and an elbow changed by more than 10 from
the previous frame or both current elbows are absent), and the proper
running position holds. -/
theorem run_rule_iff (hist : List AngleFrame) (prev : Option String) (f : AngleFrame)
    (hL : hist.getLast? = some f)
    (hbuf : action_buffer_active hist prev = false)
    (hc : is_crouching f = false)
    (hmc : mc_rule hist f = false) :
    classify_action_simple hist prev = "run" ↔
      alternating_knees f = true ∧ arm_movement hist f = true ∧
      proper_running_position f = true := by
  rw [classify_eq hist prev f hL, if_neg (by simp [hc]), if_neg (by simp [hmc])]
  constructor
  · intro h
    by_cases hrw : run_rule hist f prev = true
    · simp [run_rule, hbuf, Bool.and_eq_true] at hrw
      exact ⟨hrw.1.1, hrw.1.2, hrw.2⟩
    · rw [if_neg hrw] at h
      split_ifs at h <;> exact absurd h (by decide)
  · intro h
    obtain ⟨h1, h2, h3⟩ := h
    have hrw : run_rule hist f prev = true := by
      simp [run_rule, h1, h2, h3, hbuf]
    rw [if_pos hrw]

def c5r1 : AngleFrame :=
  { left_knee_angle := some 155
    right_knee_angle := some 125
    left_elbow_angle := some 130
    right_elbow_angle := some 160 }

def c5r2 : AngleFrame :=
  { left_knee_angle := some 130
    right_knee_angle := some 160
    left_elbow_angle := some 150
    right_elbow_angle := some 140 }

unseal Rat.add Rat.sub Rat.mul Rat.inv in
/-- Witness for run_rule_iff at the two-frame running scenario. -/
theorem run_rule_iff_witness :
    ([c5r1, c5r2].getLast? = some c5r2 ∧
     action_buffer_active [c5r1, c5r2] none = false ∧
     is_crouching c5r2 = false ∧ mc_rule [c5r1, c5r2] c5r2 = false) ∧
    (classify_action_simple [c5r1, c5r2] none = "run" ↔
      alternating_knees c5r2 = true ∧ arm_movement [c5r1, c5r2] c5r2 = true ∧
      proper_running_position c5r2 = true) :=
  ⟨⟨rfl, by decide, by decide, by decide⟩,
   run_rule_iff [c5r1, c5r2] none c5r2 rfl (by decide) (by decide) (by decide)⟩

/-- Claim C6: when the crouch rule does not fire on the latest frame, the
raw label is mountain climber iff both elbows are present and above 160,
both shoulders are present and below 115, and either the alternating-hip
evidence of the last 3 frames holds or the history has fewer than 3
frames. -/
theorem mountain_climber_rule_iff (hist : List AngleFrame) (prev : Option String)
    (f : AngleFrame) (hL : hist.getLast? = some f)
    (hc : is_crouching f = false) :
    classify_action_simple hist prev = "mountain_climber" ↔
      straight_arms f = true ∧ hunched_back f = true ∧
      (alternating_hips hist f = true ∨ hist.length < 3) := by
  rw [classify_eq hist prev f hL, if_neg (by simp [hc])]
  constructor
  · intro h
    by_cases hm : mc_rule hist f = true
    · have hm2 := hm
      simp [mc_rule, Bool.and_eq_true, Bool.or_eq_true, decide_eq_true_eq] at hm2
      tauto
    · rw [if_neg hm] at h
      split_ifs at h <;> exact absurd h (by decide)
  · intro h
    obtain ⟨h1, h2, h3⟩ := h
    have hm : mc_rule hist f = true := by
      rcases h3 with h3 | h3 <;> simp [mc_rule, h1, h2, h3]
    rw [if_pos hm]

def c6w : AngleFrame :=
  { left_elbow_angle := some 165
    right_elbow_angle := some 163
    left_shoulder_angle := some 110
    right_shoulder_angle := some 112
    left_hip_angle := some 125
    right_hip_angle := some 145 }

unseal Rat.add Rat.sub Rat.mul Rat.inv in
/-- Witness for mountain_climber_rule_iff at a one-frame grace-period pose. -/
theorem mountain_climber_rule_iff_witness :
    ([c6w].getLast? = some c6w ∧ is_crouching c6w = false) ∧
    (classify_action_simple [c6w] none = "mountain_climber" ↔
      straight_arms c6w = true ∧ hunched_back c6w = true ∧
      (alternating_hips [c6w] c6w = true ∨ ([c6w] : List AngleFrame).length < 3)) :=
  ⟨⟨rfl, by decide⟩, mountain_climber_rule_iff [c6w] none c6w rfl (by decide)⟩

def c7a : AngleFrame :=
  { left_hip_y := some (6/10)
    right_hip_y := some (6/10)
    left_shoulder_y := some (4/10)
    right_shoulder_y := some (4/10) }

def c7b : AngleFrame :=
  { left_hip_y := some (1/2) }

def c7c : AngleFrame :=
  { left_hip_y := some (1/2)
    right_hip_y := some (1/2)
    left_shoulder_y := some (3/10)
    right_shoulder_y := some (3/10) }

unseal Rat.add Rat.sub Rat.mul Rat.inv in
/-- Claim C7 counterexample: a 3-frame history of which only 2 frames carry
complete landmark-height data (fewer than 3 in the whole history), yet the
raw label is jump: the evaluator requires only 2 complete frames among the
last 3. -/
theorem jump_two_complete_frames_cex :
    ([c7a, c7b, c7c].filterMap frameHipSize).length = 2 ∧
    classify_action_simple [c7a, c7b, c7c] none = "jump" := by decide

/-- Claim C7 (amended): the jump evaluator returns false and the raw label
is never jump when the history has fewer than 3 frames or fewer than 2 of
the last 3 frames carry complete landmark-height data. -/
theorem jump_insufficient_data (hist : List AngleFrame) (prev : Option String)
    (h : hist.length < 3 ∨ completeCount hist < 2) :
    classify_action_simple hist prev ≠ "jump" := by
  cases hgl : hist.getLast? with
  | none =>
      have hu : classify_action_simple hist prev = "unknown" := by
        unfold classify_action_simple
        rw [hgl]
      rw [hu]
      decide
  | some f =>
      have hj : jump_rule hist f prev = false := by
        rcases h with h | h
        · have hlen : ¬ (3 ≤ hist.length) := by omega
          simp [jump_rule, hlen]
        · have h' : (lastHipSizes hist).length < 2 := h
          have hcore : jump_core hist f = false := by
            simp [jump_core, h']
          simp [jump_rule, hcore]
      rw [classify_eq hist prev f hgl]
      split_ifs with h1 h2 h3 h4
      · decide
      · decide
      · decide
      · rw [hj] at h4
        exact absurd h4 (by decide)
      · decide

/-- Witness for jump_insufficient_data on an empty history. -/
theorem jump_insufficient_data_witness :
    (([] : List AngleFrame).length < 3 ∨ completeCount [] < 2) ∧
    classify_action_simple [] none ≠ "jump" :=
  ⟨Or.inl (by decide), jump_insufficient_data [] none (Or.inl (by decide))⟩

def c8a : AngleFrame :=
  { left_knee_angle := some (-5)
    right_knee_angle := some 100 }

def c8b : AngleFrame :=
  { right_knee_angle := some 100 }

unseal Rat.add Rat.sub Rat.mul Rat.inv in
/-- Claim C8 counterexample: an out-of-range knee angle of -5 degrees is not
treated as an absent key: with the malformed value the classifier returns
crouch, with the key removed it returns unknown. -/
theorem malformed_not_absent_cex :
    ((-5 : ℚ) < 0) ∧
    c8a.left_knee_angle = some (-5) ∧
    c8b = { c8a with left_knee_angle := none } ∧
    classify_action_simple [c8a] none = "crouch" ∧
    classify_action_simple [c8b] none = "unknown" ∧
    classify_action_simple [c8a] none ≠ classify_action_simple [c8b] none := by decide

def kneeFrame (lk rk : ℚ) : AngleFrame :=
  { left_knee_angle := some lk
    right_knee_angle := some rk }

/-- Claim C8 (amended): the classifier performs no validation of field
values: a malformed (out-of-range) value takes part in the same threshold
comparisons as a valid one, so any knee pair below 120, including negative
out-of-range values, fires crouch exactly like an in-range pair; the result
on a malformed history can therefore differ from the absent-key history,
though no frame is aborted. -/
theorem malformed_used_directly (lk rk : ℚ) (prev : Option String)
    (h1 : lk < 120) (h2 : rk < 120) :
    classify_action_simple [kneeFrame lk rk] prev = "crouch" := by
  have hic : is_crouching (kneeFrame lk rk) = true := by
    simp [is_crouching, knees_bent, in_mountain_climber_position, kneeFrame]
    exact ⟨h1, h2⟩
  rw [classify_eq [kneeFrame lk rk] prev (kneeFrame lk rk) rfl]
  simp [hic]

/-- Witness for malformed_used_directly at the out-of-range knee value -5. -/
theorem malformed_used_directly_witness :
    ((-5 : ℚ) < 120 ∧ (100 : ℚ) < 120) ∧
    classify_action_simple [kneeFrame (-5) 100] none = "crouch" :=
  ⟨⟨by decide, by decide⟩,
   malformed_used_directly (-5) 100 none (by decide) (by decide)⟩

def c10a : AngleFrame :=
  { left_hip_y := some (6/10)
    right_hip_y := some (6/10)
    left_shoulder_y := some (4/10)
    right_shoulder_y := some (4/10) }

def c10b : AngleFrame :=
  { left_hip_y := some (11/20)
    right_hip_y := some (11/20)
    left_shoulder_y := some (7/20)
    right_shoulder_y := some (7/20) }

def c10c : AngleFrame :=
  { left_hip_y := some (1/2)
    right_hip_y := some (1/2)
    left_shoulder_y := some (3/10)
    right_shoulder_y := some (3/10)
    left_shoulder_angle := some 110
    right_shoulder_angle := some 110
    left_elbow_angle := some 170
    right_elbow_angle := some 170 }

unseal Rat.add Rat.sub Rat.mul Rat.inv in
/-- Claim C10: the deep-crouch and mountain-climber exclusions of the jump
evaluator are only evaluated when both knee angles are present: on a rising
3-frame history whose latest frame omits both knees but shows the mountain
climber pose (shoulders 110 below 115, elbows 170 above 165), the pose
check passes and the raw label is jump. -/
theorem jump_ignores_pose_without_knees :
    c10c.left_knee_angle = none ∧ c10c.right_knee_angle = none ∧
    hunched_back c10c = true ∧
    c10c.left_elbow_angle = some 170 ∧ c10c.right_elbow_angle = some 170 ∧
    ((165 : ℚ) < 170) ∧
    proper_jump_pose c10c = true ∧
    classify_action_simple [c10a, c10b, c10c] none = "jump" := by decide
